import Mathlib

/-!
Verification development for the condition rule engine of the
crypto_adventure_rpg repository (src/condition_parser.py and
src/mission_system.py), as a shallow embedding in Lean 4.

Modelling conventions:
* Python dicts with a fixed key set are Lean structures; dicts used as
  string-keyed maps are association lists (`List (String × _)`), looked up
  with `List.lookup` (Python dicts have unique keys, so first-match lookup
  agrees).
* Python numbers appearing as metric values are modelled exactly: `int` as
  `Int`, `float` literals as exact rationals (`Rat`); the claims proved here
  never depend on binary floating-point rounding.
* A Python function that can raise (KeyError, TypeError, ValueError) is
  modelled as returning `Option _`, with `none` for the exception.
* `\w`, `\d`, `\s` of the `re` patterns and `str.strip/lower` are modelled
  over their ASCII meaning; every concrete string evaluated in a theorem
  below uses only characters on which this agrees with Python's Unicode
  semantics.
-/

namespace CryptoRPG

/-- Tagged value type: the result type of `ConditionParser._parse_value`
(bool / int / float / str), also used for metric values in action data. -/
inductive PValue where
  | vBool (b : Bool)
  | vInt (n : Int)
  | vFloat (q : Rat)
  | vStr (s : String)
deriving DecidableEq, Repr

/-- Model of Python `str.strip()` (whitespace in its ASCII reading). -/
def pyStrip (s : String) : String :=
  String.mk (((s.toList.dropWhile Char.isWhitespace).reverse.dropWhile
    Char.isWhitespace).reverse)

/-- Model of Python `str.lower()` (ASCII reading). -/
def pyLower (s : String) : String := String.mk (s.toList.map Char.toLower)

/-- Model of Python `str.split(sep)` for a one-character separator. -/
def splitOnChar (c : Char) : List Char → List (List Char)
  | [] => [[]]
  | a :: t =>
    if a = c then [] :: splitOnChar c t
    else
      match splitOnChar c t with
      | [] => [[a]]
      | g :: gs => (a :: g) :: gs

/-- Numeric view used by Python's comparison and arithmetic operators:
`bool` is an `int` subtype (True == 1), `int` and `float` compare by value,
a string has no numeric view. -/
def toNum : PValue → Option Rat
  | .vBool b => some (if b then 1 else 0)
  | .vInt n => some (n : Rat)
  | .vFloat q => some q
  | .vStr _ => none

/-- Digit run with single underscores strictly between digits: the tail of
the digit-group grammar shared by Python's `int()` and `float()` literals
(first character handled by `digitsOk`). -/
def digitsTail : List Char → Bool
  | [] => true
  | c :: t =>
    (if c = '_' then t.head?.any Char.isDigit else c.isDigit) && digitsTail t

/-- Non-empty digit run, underscores allowed between digits, as accepted by
Python's `int()` / `float()` digit groups. -/
def digitsOk : List Char → Bool
  | [] => false
  | c :: t => c.isDigit && digitsTail t

/-- Numeric value of a digit run, ignoring the grouping underscores. -/
def digitsToNatU (l : List Char) : Nat :=
  l.foldl (fun n c => if c = '_' then n else n * 10 + (c.toNat - 48)) 0

/-- Sign-then-digit-group body of Python `int(s)`. -/
def pyIntAux : List Char → Option Int
  | '+' :: t => if digitsOk t then some (digitsToNatU t : Int) else none
  | '-' :: t => if digitsOk t then some (-(digitsToNatU t : Int)) else none
  | l => if digitsOk l then some (digitsToNatU l : Int) else none

/-- Model of Python `int(s)` on an already-stripped string: optional sign,
then one digit group; `none` is `ValueError`. -/
def pyInt (s : String) : Option Int := pyIntAux s.toList

/-- Split a character list at the first character satisfying `p`; the second
component is `none` when no such character occurs. -/
def splitAtChar (p : Char → Bool) : List Char → (List Char × Option (List Char))
  | [] => ([], none)
  | c :: t =>
    if p c then ([], some t)
    else
      let r := splitAtChar p t
      (c :: r.1, r.2)

/-- Value of a float mantissa `digits [ '.' digits ]` (either digit group may
be empty when the dot is present, not both); `none` is `ValueError`. -/
def mantissaVal (l : List Char) : Option Rat :=
  let r := splitAtChar (fun c => c = '.') l
  match r.2 with
  | none => if digitsOk r.1 then some (digitsToNatU r.1 : Rat) else none
  | some fp =>
    if (r.1 = [] || digitsOk r.1) && (fp = [] || digitsOk fp)
        && !(r.1.isEmpty && fp.isEmpty) then
      some ((digitsToNatU r.1 : Rat)
        + (digitsToNatU fp : Rat) / (10 : Rat) ^ (fp.filter (fun c => c ≠ '_')).length)
    else none

/-- Scale factor `10 ^ e` for a signed exponent. -/
def expScale (e : Int) : Rat :=
  if 0 ≤ e then (10 : Rat) ^ e.toNat else 1 / (10 : Rat) ^ (-e).toNat

/-- Exponent part after `e`/`E`: optional sign and one digit group. -/
def expVal (l : List Char) : Option Int :=
  match l with
  | '+' :: t => if digitsOk t then some (digitsToNatU t : Int) else none
  | '-' :: t => if digitsOk t then some (-(digitsToNatU t : Int)) else none
  | t => if digitsOk t then some (digitsToNatU t : Int) else none

/-- Model of Python `float(s)` on an already-stripped finite decimal literal:
optional sign, mantissa, optional `e`/`E` exponent, evaluated exactly as a
rational. (`inf`/`nan` forms contain no `.` and `_parse_value` only calls
`float` on strings containing `.`, so they never reach this model.) -/
def pyFloat (s : String) : Option Rat :=
  let l := s.toList
  let sgn : Rat := match l with | '-' :: _ => -1 | _ => 1
  let body := match l with | '+' :: t => t | '-' :: t => t | t => t
  let r := splitAtChar (fun c => c = 'e' || c = 'E') body
  match mantissaVal r.1 with
  | none => none
  | some m =>
    match r.2 with
    | none => some (sgn * m)
    | some el =>
      match expVal el with
      | none => none
      | some e => some (sgn * m * expScale e)

/-- Model of `ConditionParser._parse_value` (src/condition_parser.py):
strip, then `true`/`false` case-insensitively to bool, then `float` when the
string contains a dot, else `int`, falling back to the string itself on
`ValueError`. Total: it never raises. -/
def parse_value (s : String) : PValue :=
  let v := pyStrip s
  let lw := pyLower v
  if lw = "true" || lw = "false" then .vBool (lw = "true")
  else if v.toList.contains '.' then
    match pyFloat v with
    | some q => .vFloat q
    | none => .vStr v
  else
    match pyInt v with
    | some n => .vInt n
    | none => .vStr v

/-- Value coercion rules as worded by the spec (§4.1 ValueCoercer), written
independently of the source: rules tried in order — `"true"/"false"`
(case-insensitive) → Bool; contains `.` and parses as a number → Float;
parses as integer → Int; otherwise → Str, never an error. -/
def parse_value_spec (s : String) : PValue :=
  let v := pyStrip s
  let lw := pyLower v
  if lw = "true" || lw = "false" then .vBool (lw = "true")
  else if v.toList.contains '.' && (pyFloat v).isSome then .vFloat ((pyFloat v).getD 0)
  else if (pyInt v).isSome then .vInt ((pyInt v).getD 0)
  else .vStr v

theorem digitsTail_cons (c : Char) (t : List Char) :
    digitsTail (c :: t)
      = ((if c = '_' then t.head?.any Char.isDigit else c.isDigit) && digitsTail t) := rfl

theorem digitsOk_cons (c : Char) (t : List Char) :
    digitsOk (c :: t) = (c.isDigit && digitsTail t) := rfl

theorem digitsTail_eq_false_of_mem_dot : ∀ l : List Char, '.' ∈ l → digitsTail l = false := by
  intro l
  induction l with
  | nil => intro h; cases h
  | cons c t ih =>
    intro h
    rw [digitsTail_cons]
    by_cases hcd : c = '.'
    · subst hcd
      simp
    · have ht : '.' ∈ t := by
        rcases List.mem_cons.mp h with h1 | h1
        · exact absurd h1.symm hcd
        · exact h1
      rw [ih ht]
      simp

theorem digitsOk_eq_false_of_mem_dot (l : List Char) (h : '.' ∈ l) : digitsOk l = false := by
  cases l with
  | nil => cases h
  | cons c t =>
    rw [digitsOk_cons]
    by_cases hc : c = '.'
    · subst hc; simp
    · have ht : '.' ∈ t := by
        rcases List.mem_cons.mp h with h1 | h1
        · exact absurd h1.symm hc
        · exact h1
      rw [digitsTail_eq_false_of_mem_dot t ht]
      simp

theorem pyIntAux_eq_none_of_mem_dot (l : List Char) (h : '.' ∈ l) :
    pyIntAux l = none := by
  rw [pyIntAux.eq_def]
  split
  · rename_i t
    have ht : '.' ∈ t := by
      rcases List.mem_cons.mp h with h1 | h1
      · exact absurd h1 (by decide)
      · exact h1
    rw [digitsOk_eq_false_of_mem_dot t ht]
    simp
  · rename_i t
    have ht : '.' ∈ t := by
      rcases List.mem_cons.mp h with h1 | h1
      · exact absurd h1 (by decide)
      · exact h1
    rw [digitsOk_eq_false_of_mem_dot t ht]
    simp
  · rw [digitsOk_eq_false_of_mem_dot _ h]
    simp

/-- A string containing a dot is never a valid Python integer literal. -/
theorem pyInt_eq_none_of_mem_dot (s : String) (h : '.' ∈ s.toList) :
    pyInt s = none :=
  pyIntAux_eq_none_of_mem_dot s.toList h

/-- C8: for every input string, `_parse_value` returns a value without
raising (it is a total function), and it implements exactly the spec's
ordered coercion rules: `"true"/"false"` case-insensitively → bool;
otherwise a string containing `.` that parses as a number → float;
otherwise a string parsing as an integer → int; any other string is
returned unchanged (trimmed) as a string. -/
theorem c8_parse_value_follows_spec_rules (s : String) :
    parse_value s = parse_value_spec s := by
  unfold parse_value parse_value_spec
  by_cases hb : (pyLower (pyStrip s) = "true" || pyLower (pyStrip s) = "false") = true
  · simp only [hb, if_pos]
  · simp only [Bool.not_eq_true] at hb
    simp only [hb, Bool.false_eq_true, if_false]
    by_cases hd : (pyStrip s).toList.contains '.' = true
    · simp only [hd, if_pos, Bool.true_and]
      cases hf : pyFloat (pyStrip s) with
      | some q => simp [hf]
      | none =>
        have hmem : '.' ∈ (pyStrip s).toList := by
          simpa [List.contains] using hd
        have hint := pyInt_eq_none_of_mem_dot (pyStrip s) hmem
        simp [hf, hint]
    · simp only [Bool.not_eq_true] at hd
      simp only [hd, Bool.false_eq_true, if_false, Bool.false_and]
      cases hi : pyInt (pyStrip s) with
      | some n => simp [hi]
      | none => simp [hi]

/-! Regular-expression fragment used by `ConditionParser.parse_condition_text`.
Every one of the 29 patterns is a plain sequence of literal runs, `\s+` gaps
and one-or-more character-class capture groups, so each is translated into a
token list; matching implements `re.search` semantics for this fragment:
leftmost starting position, greedy one-or-more with backtracking. -/

/-- The backquote character (the identifier-quoting character of the
condition grammar). -/
def backquote : Char := Char.ofNat 96

/-- Character classes occurring in the patterns (ASCII reading of `\w`,
`\d`, `\s`; every concrete string evaluated below stays inside the agreement
with Python's Unicode classes). -/
inductive CClass where
  | wordc
  | digit
  | space
  | opch
  | noBacktick
  | wordDot
  | digitComma
deriving DecidableEq, Repr

def CClass.mem : CClass → Char → Bool
  | .wordc, c => c.isAlphanum || c = '_'
  | .digit, c => c.isDigit
  | .space, c => c.isWhitespace
  | .opch, c => c = '≥' || c = '≤' || c = '=' || c = '!' || c = '>' || c = '<'
  | .noBacktick, c => c ≠ backquote
  | .wordDot, c => c.isAlphanum || c = '_' || c = '.'
  | .digitComma, c => c.isDigit || c = ','

/-- One token of a pattern: a literal run, or a one-or-more character class
(capturing when `cap`; `\s+` is the non-capturing space class). -/
inductive RTok where
  | lit (s : String)
  | cls (p : CClass) (cap : Bool)
deriving DecidableEq, Repr

/-- Try successively shorter non-empty matches (longest first, `re`'s greedy
backtracking) for a one-or-more class whose maximal run has length `k`;
`rest` matches the remaining tokens. -/
def tryLen (rest : List Char → Option (List String × List Char)) (cs : List Char)
    (cap : Bool) : Nat → Option (List String × List Char)
  | 0 => none
  | k + 1 =>
    match rest (cs.drop (k + 1)) with
    | some r => some ((if cap then [String.mk (cs.take (k + 1))] else []) ++ r.1, r.2)
    | none => tryLen rest cs cap k

/-- Match a token sequence against a prefix of `cs`, returning the captured
groups and the remaining characters; greedy with backtracking, as Python's
`re` behaves on this pattern fragment. -/
def matchToks : List RTok → List Char → Option (List String × List Char)
  | [], cs => some ([], cs)
  | .lit s :: ts, cs =>
    if s.toList.isPrefixOf cs then matchToks ts (cs.drop s.toList.length) else none
  | .cls p cap :: ts, cs => tryLen (matchToks ts) cs cap ((cs.takeWhile p.mem).length)

/-- Model of `re.search(pattern, text)`: try each start position from the
left, returning the captured groups of the first position that matches. -/
def searchFrom (toks : List RTok) : List Char → Option (List String)
  | [] => (matchToks toks []).map (fun r => r.1)
  | c :: cs' =>
    match matchToks toks (c :: cs') with
    | some r => some r.1
    | none => searchFrom toks cs'

def reSearch (toks : List RTok) (s : String) : Option (List String) :=
  searchFrom toks s.toList

/-- A pattern of `parse_condition_text`: the verbatim Python regex source
(used by `_parse_matched_condition`, which dispatches on substrings of the
pattern text) together with its token-list translation. -/
structure Pattern where
  src : String
  toks : List RTok
deriving Repr

def W : RTok := .cls .wordc true
def WS : RTok := .cls .space false
def OP : RTok := .cls .opch true
def D : RTok := .cls .digit true
def WD : RTok := .cls .wordDot true
def NB : RTok := .cls .noBacktick true
def DC : RTok := .cls .digitComma true
def L (s : String) : RTok := .lit s

/-- The 29 patterns of `ConditionParser.parse_condition_text`, in source
order; `src` is each Python raw-string regex verbatim. -/
def patterns : List Pattern := [
  ⟨"`(\\w+)`\\s+の\\s+`(\\w+)`\\s+([≥≤==!=><]+)\\s+([\\w\\.]+)",
   [L "`", W, L "`", WS, L "の", WS, L "`", W, L "`", WS, OP, WS, WD]⟩,
  ⟨"`(\\w+)`\\s+実行回数\\s+([≥≤==!=><]+)\\s+(\\d+)",
   [L "`", W, L "`", WS, L "実行回数", WS, OP, WS, D]⟩,
  ⟨"累計\\s+`(\\w+)`\\s+実行回数\\s+([≥≤==!=><]+)\\s+(\\d+)",
   [L "累計", WS, L "`", W, L "`", WS, L "実行回数", WS, OP, WS, D]⟩,
  ⟨"1日内の\\s+`(\\w+)`\\s+回数\\s+([≥≤==!=><]+)\\s+(\\d+)",
   [L "1日内の", WS, L "`", W, L "`", WS, L "回数", WS, OP, WS, D]⟩,
  ⟨"1日内に\\s+`(\\w+)`\\s+実行回数\\s+([≥≤==!=><]+)\\s+(\\d+)",
   [L "1日内に", WS, L "`", W, L "`", WS, L "実行回数", WS, OP, WS, D]⟩,
  ⟨"`(\\w+)`\\s+で\\s+`([^`]+)`\\s+を1回完了",
   [L "`", W, L "`", WS, L "で", WS, L "`", NB, L "`", WS, L "を1回完了"]⟩,
  ⟨"`(\\w+)`\\s+の\\s+`(\\w+)`\\s+([≥≤==!=><]+)\\s+([\\w\\.]+)\\s+and\\s+`(\\w+)`\\s+([≥≤==!=><]+)\\s+([\\w\\.]+)",
   [L "`", W, L "`", WS, L "の", WS, L "`", W, L "`", WS, OP, WS, WD, WS, L "and",
    WS, L "`", W, L "`", WS, OP, WS, WD]⟩,
  ⟨"`(\\w+)`\\s+の\\s+`(\\w+)`\\s+([≥≤==!=><]+)\\s+([\\w\\.]+)\\s+かつ\\s+`(\\w+)`\\s+([≥≤==!=><]+)\\s+([\\w\\.]+)",
   [L "`", W, L "`", WS, L "の", WS, L "`", W, L "`", WS, OP, WS, WD, WS, L "かつ",
    WS, L "`", W, L "`", WS, OP, WS, WD]⟩,
  ⟨"1日内の\\s+`(\\w+)`\\s+回数\\s+([≥≤==!=><]+)\\s+(\\d+)\\s+かつ\\s+`(\\w+)`\\s+([≥≤==!=><]+)\\s+([\\w\\.]+)",
   [L "1日内の", WS, L "`", W, L "`", WS, L "回数", WS, OP, WS, D, WS, L "かつ",
    WS, L "`", W, L "`", WS, OP, WS, WD]⟩,
  ⟨"(\\d+)日連続で\\s+`(\\w+)`\\s+を実行",
   [D, L "日連続で", WS, L "`", W, L "`", WS, L "を実行"]⟩,
  ⟨"累計\\s+`(\\w+)`\\s+の日次増分が(\\d+)日連続で増加",
   [L "累計", WS, L "`", W, L "`", WS, L "の日次増分が", D, L "日連続で増加"]⟩,
  ⟨"`(\\w+)`\\s+と\\s+`(\\w+)`\\s+を同日に両方実行\\s+([≥≤==!=><]+)\\s+(\\d+)",
   [L "`", W, L "`", WS, L "と", WS, L "`", W, L "`", WS, L "を同日に両方実行", WS, OP, WS, D]⟩,
  ⟨"`(\\w+)`\\s+の\\s+`(\\w+)`\\s+([≥≤==!=><]+)\\s+([\\w\\.]+)\\s+over\\s+(\\d+)\\s+day",
   [L "`", W, L "`", WS, L "の", WS, L "`", W, L "`", WS, OP, WS, WD, WS, L "over", WS, D, WS, L "day"]⟩,
  ⟨"`(\\w+)`\\s+の\\s+`(\\w+)`\\s+([≥≤==!=><]+)\\s+(\\d+)%",
   [L "`", W, L "`", WS, L "の", WS, L "`", W, L "`", WS, OP, WS, D, L "%"]⟩,
  ⟨"`(\\w+)`\\s+の\\s+`(\\w+)`\\s+in\\s+\\[([\\d,]+)\\]\\s+のいずれかで起動",
   [L "`", W, L "`", WS, L "の", WS, L "`", W, L "`", WS, L "in", WS, L "[", DC, L "]",
    WS, L "のいずれかで起動"]⟩,
  ⟨"累計\\s+`(\\w+)`\\s+([≥≤==!=><]+)\\s+([\\w\\.]+)",
   [L "累計", WS, L "`", W, L "`", WS, OP, WS, WD]⟩,
  ⟨"1日内の合計\\s+`(\\w+)`\\s+([≥≤==!=><]+)\\s+([\\w\\.]+)",
   [L "1日内の合計", WS, L "`", W, L "`", WS, OP, WS, WD]⟩,
  ⟨"1日内\\s+`(\\w+)`\\s+合計\\s+([≥≤==!=><]+)\\s+([\\w\\.]+)",
   [L "1日内", WS, L "`", W, L "`", WS, L "合計", WS, OP, WS, WD]⟩,
  ⟨"`(\\w+)`\\s+の\\s+`(\\w+)`\\s+が(\\d+)日連続で改善",
   [L "`", W, L "`", WS, L "の", WS, L "`", W, L "`", WS, L "が", D, L "日連続で改善"]⟩,
  ⟨"`(\\w+)`\\s+の\\s+`(\\w+)`\\s+が(\\d+)日連続で50%以上維持",
   [L "`", W, L "`", WS, L "の", WS, L "`", W, L "`", WS, L "が", D, L "日連続で50%以上維持"]⟩,
  ⟨"累計\\s+`(\\w+)`\\s+([≥≤==!=><]+)\\s+([\\w\\.]+)\\s+over\\s+(\\d+)\\s+day",
   [L "累計", WS, L "`", W, L "`", WS, OP, WS, WD, WS, L "over", WS, D, WS, L "day"]⟩,
  ⟨"`(\\w+)`\\s+で\\s+`(\\w+)`\\s+([≥≤==!=><]+)\\s+([\\w\\.]+)\\s+を1回使用",
   [L "`", W, L "`", WS, L "で", WS, L "`", W, L "`", WS, OP, WS, WD, WS, L "を1回使用"]⟩,
  ⟨"`(\\w+)`\\s+で\\s+`(\\w+)`\\s+([≥≤==!=><]+)\\s+([\\w\\.]+)\\s+を1回完了",
   [L "`", W, L "`", WS, L "で", WS, L "`", W, L "`", WS, OP, WS, WD, WS, L "を1回完了"]⟩,
  ⟨"`(\\w+)`\\s+にて\\s+`(\\w+)`\\s+([≥≤==!=><]+)\\s+([\\w\\.]+)\\s+かつ\\s+`(\\w+)`\\s+([≥≤==!=><]+)\\s+([\\w\\.]+)",
   [L "`", W, L "`", WS, L "にて", WS, L "`", W, L "`", WS, OP, WS, WD, WS, L "かつ",
    WS, L "`", W, L "`", WS, OP, WS, WD]⟩,
  ⟨"`(\\w+)`\\s+を\\s+Pool\\s+ではなく\\s+Solo\\s+モードで1回実行",
   [L "`", W, L "`", WS, L "を", WS, L "Pool", WS, L "ではなく", WS, L "Solo", WS, L "モードで1回実行"]⟩,
  ⟨"`(\\w+)`\\s+で月を含む観測1回完了",
   [L "`", W, L "`", WS, L "で月を含む観測1回完了"]⟩,
  ⟨"`(\\w+)`\\s+の\\s+`(\\w+)`\\s+/\\s+`(\\w+)`\\s+([≥≤==!=><]+)\\s+([\\w\\.]+)",
   [L "`", W, L "`", WS, L "の", WS, L "`", W, L "`", WS, L "/", WS, L "`", W, L "`",
    WS, OP, WS, WD]⟩,
  ⟨"`(\\w+)`\\s+の\\s+`(\\w+)`\\s+([≥≤==!=><]+)\\s+([\\w\\.]+)\\s+×\\s+`(\\w+)`\\s+([≥≤==!=><]+)\\s+([\\w\\.]+)",
   [L "`", W, L "`", WS, L "の", WS, L "`", W, L "`", WS, OP, WS, WD, WS, L "×",
    WS, L "`", W, L "`", WS, OP, WS, WD]⟩,
  ⟨"`(\\w+)`\\s+実行回数\\s+for\\s+type=`(\\w+)`\\s+([≥≤==!=><]+)\\s+(\\d+)",
   [L "`", W, L "`", WS, L "実行回数", WS, L "for", WS, L "type=`", W, L "`", WS, OP, WS, D]⟩]

/-- A sub-condition dict of a `compound_and` condition (the four keys
`_parse_compound_condition` writes and `check_simple_condition` reads). -/
structure SubCond where
  action : Option String := none
  metric : Option String := none
  operator : Option String := none
  value : Option PValue := none
deriving DecidableEq, Repr

/-- A condition dict. Python builds plain dicts whose key set depends on the
condition type; this structure has one optional field per key ever written
by `ConditionParser` / read by `MissionSystem`, with `none` for an absent
key (reading an absent key is a `KeyError`, modelled as `none` results in
the check functions). The `type` key is `ctype` (`type` is a Lean keyword);
the `condition` key of completion conditions is `condition_text`. -/
structure Cond where
  ctype : Option String := none
  action : Option String := none
  metric : Option String := none
  operator : Option String := none
  value : Option PValue := none
  count : Option Int := none
  days : Option Int := none
  actions : Option (List String) := none
  conditions : Option (List SubCond) := none
  percentage : Option Rat := none
  values : Option (List Int) := none
  condition_text : Option String := none
  action_operator : Option String := none
  action_count : Option Int := none
  metric_operator : Option String := none
  metric_value : Option PValue := none
  metric1 : Option String := none
  metric2 : Option String := none
  operator1 : Option String := none
  value1 : Option PValue := none
  operator2 : Option String := none
  value2 : Option PValue := none
  threshold : Option Rat := none
  description : Option String := none
deriving DecidableEq, Repr

/-- The `action_mapping` dict of `ConditionParser.__init__`. -/
def action_mapping : List (String × String) :=
  [("design_plant", "power_plant"), ("mine_log", "mining"), ("cea_run", "cea"),
   ("observe_optics", "astronomy"), ("build_module", "build"),
   ("advance_day", "advance_day"), ("log_learning", "learning"),
   ("review_day", "review_day")]

/-- The `operator_mapping` dict of `ConditionParser.__init__`. -/
def operator_mapping : List (String × String) :=
  [("≥", ">="), ("≤", "<="), ("==", "=="), ("!=", "!="), (">", ">"), ("<", "<")]

/-- `self.action_mapping.get(action, action)`. -/
def mapAction (a : String) : String := (action_mapping.lookup a).getD a

/-- `self.operator_mapping.get(op, op)`. -/
def mapOperator (o : String) : String := (operator_mapping.lookup o).getD o

/-- Python `int(s)` including its own whitespace stripping. -/
def pyIntS (s : String) : Option Int := pyInt (pyStrip s)

/-- Python `float(s)` including its own whitespace stripping. -/
def pyFloatS (s : String) : Option Rat := pyFloat (pyStrip s)

/-- `_parse_simple_condition`; `none` models the `ValueError` of unpacking a
group tuple of the wrong arity. -/
def parse_simple_condition : List String → Option Cond
  | [action, metric, operator, value] =>
    some { ctype := some "simple", action := some (mapAction action),
           metric := some metric, operator := some (mapOperator operator),
           value := some (parse_value value) }
  | _ => none

/-- `_parse_count_condition`. -/
def parse_count_condition : List String → Option Cond
  | [action, operator, value] =>
    (pyIntS value).map fun n =>
      { ctype := some "total_action_count", action := some (mapAction action),
        operator := some (mapOperator operator), count := some n }
  | _ => none

/-- `_parse_type_count_condition`. The Python dict literal writes the key
`"type"` twice — first `"type_action_count"`, then the captured group — so
the captured group wins and the resulting type tag is never the string
`"type_action_count"`. -/
def parse_type_count_condition : List String → Option Cond
  | [action, type_value, operator, value] =>
    (pyIntS value).map fun n =>
      { ctype := some type_value, action := some (mapAction action),
        operator := some (mapOperator operator), count := some n }
  | _ => none

/-- `_parse_total_count_condition`. -/
def parse_total_count_condition : List String → Option Cond
  | [action, operator, value] =>
    (pyIntS value).map fun n =>
      { ctype := some "total_action_count", action := some (mapAction action),
        operator := some (mapOperator operator), count := some n }
  | _ => none

/-- `_parse_total_metric_condition`. -/
def parse_total_metric_condition : List String → Option Cond
  | [metric, operator, value] =>
    some { ctype := some "total_metric", metric := some metric,
           operator := some (mapOperator operator), value := some (parse_value value) }
  | _ => none

/-- `_parse_daily_condition`. -/
def parse_daily_condition : List String → Option Cond
  | [action, operator, value] =>
    (pyIntS value).map fun n =>
      { ctype := some "daily_action_count", action := some (mapAction action),
        operator := some (mapOperator operator), count := some n }
  | _ => none

/-- `_parse_daily_total_condition`. -/
def parse_daily_total_condition : List String → Option Cond
  | [metric, operator, value] =>
    some { ctype := some "daily_total_metric", metric := some metric,
           operator := some (mapOperator operator), value := some (parse_value value) }
  | _ => none

/-- `_parse_daily_compound_condition`. -/
def parse_daily_compound_condition : List String → Option Cond
  | [action, operator1, count, metric, operator2, value] =>
    (pyIntS count).map fun n =>
      { ctype := some "daily_compound", action := some (mapAction action),
        action_operator := some (mapOperator operator1), action_count := some n,
        metric := some metric, metric_operator := some (mapOperator operator2),
        metric_value := some (parse_value value) }
  | _ => none

/-- `_parse_completion_condition`. -/
def parse_completion_condition : List String → Option Cond
  | [action, condition] =>
    some { ctype := some "completion", action := some (mapAction action),
           condition_text := some condition }
  | _ => none

/-- `_parse_usage_condition`. -/
def parse_usage_condition : List String → Option Cond
  | [action, metric, operator, value] =>
    some { ctype := some "usage", action := some (mapAction action),
           metric := some metric, operator := some (mapOperator operator),
           value := some (parse_value value) }
  | _ => none

/-- `_parse_moon_observation_condition` (reads only `groups[0]`; an empty
group tuple would be an `IndexError`). -/
def parse_moon_observation_condition : List String → Option Cond
  | [] => none
  | action :: _ =>
    some { ctype := some "moon_observation", action := some (mapAction action) }

/-- `_parse_solo_mode_condition`. -/
def parse_solo_mode_condition : List String → Option Cond
  | [] => none
  | action :: _ =>
    some { ctype := some "solo_mode", action := some (mapAction action) }

/-- `_parse_compound_condition`: seven groups build a `compound_and`, any
other arity falls back to an `unknown` condition (the description string of
that fallback is Python's f-string over the group tuple; its exact
punctuation is abstracted here). -/
def parse_compound_condition (gs : List String) : Option Cond :=
  match gs with
  | [action1, metric1, op1, val1, metric2, op2, val2] =>
    some { ctype := some "compound_and",
           conditions := some
             [{ action := some (mapAction action1), metric := some metric1,
                operator := some (mapOperator op1), value := some (parse_value val1) },
              { action := some (mapAction action1), metric := some metric2,
                operator := some (mapOperator op2), value := some (parse_value val2) }] }
  | _ =>
    some { ctype := some "unknown",
           description := some ("Compound condition: " ++ String.intercalate ", " gs) }

/-- `_parse_consecutive_condition`. -/
def parse_consecutive_condition : List String → Option Cond
  | [days, action] =>
    (pyIntS days).map fun n =>
      { ctype := some "consecutive_days", action := some (mapAction action),
        days := some n }
  | _ => none

/-- `_parse_improvement_condition`. -/
def parse_improvement_condition : List String → Option Cond
  | [action, metric, days] =>
    (pyIntS days).map fun n =>
      { ctype := some "consecutive_improvement", action := some (mapAction action),
        metric := some metric, days := some n }
  | _ => none

/-- `_parse_maintenance_condition`. -/
def parse_maintenance_condition : List String → Option Cond
  | [action, metric, days] =>
    (pyIntS days).map fun n =>
      { ctype := some "consecutive_maintenance", action := some (mapAction action),
        metric := some metric, days := some n, threshold := some (1 / 2 : Rat) }
  | _ => none

/-- `_parse_incremental_condition`. -/
def parse_incremental_condition : List String → Option Cond
  | [metric, days] =>
    (pyIntS days).map fun n =>
      { ctype := some "incremental_increase", metric := some metric, days := some n }
  | _ => none

/-- `_parse_same_day_condition`. -/
def parse_same_day_condition : List String → Option Cond
  | [action1, action2, operator, value] =>
    (pyIntS value).map fun n =>
      { ctype := some "same_day_both",
        actions := some [mapAction action1, mapAction action2],
        operator := some (mapOperator operator), count := some n }
  | _ => none

/-- `_parse_over_period_condition` (five groups → `over_period`, four →
`over_period_total`, anything else is an unpacking `ValueError`). -/
def parse_over_period_condition : List String → Option Cond
  | [action, metric, operator, value, days] =>
    (pyIntS days).map fun n =>
      { ctype := some "over_period", action := some (mapAction action),
        metric := some metric, operator := some (mapOperator operator),
        value := some (parse_value value), days := some n }
  | [metric, operator, value, days] =>
    (pyIntS days).map fun n =>
      { ctype := some "over_period_total", metric := some metric,
        operator := some (mapOperator operator), value := some (parse_value value),
        days := some n }
  | _ => none

/-- `_parse_percentage_condition`. -/
def parse_percentage_condition : List String → Option Cond
  | [action, metric, operator, value] =>
    (pyFloatS value).map fun q =>
      { ctype := some "percentage", action := some (mapAction action),
        metric := some metric, operator := some (mapOperator operator),
        percentage := some q }
  | _ => none

/-- `_parse_range_condition`. -/
def parse_range_condition : List String → Option Cond
  | [action, metric, valuesStr] =>
    (((splitOnChar ',' valuesStr.toList).map String.mk).mapM (fun v => pyIntS v)).map fun vl =>
      { ctype := some "range_check", action := some (mapAction action),
        metric := some metric, values := some vl }
  | _ => none

/-- `_parse_ratio_condition`. -/
def parse_ratio_condition : List String → Option Cond
  | [action, metric1, metric2, operator, value] =>
    some { ctype := some "ratio", action := some (mapAction action),
           metric1 := some metric1, metric2 := some metric2,
           operator := some (mapOperator operator), value := some (parse_value value) }
  | _ => none

/-- `_parse_multiplication_condition`. -/
def parse_multiplication_condition : List String → Option Cond
  | [action, metric1, op1, val1, metric2, op2, val2] =>
    some { ctype := some "multiplication", action := some (mapAction action),
           metric1 := some metric1, operator1 := some (mapOperator op1),
           value1 := some (parse_value val1), metric2 := some metric2,
           operator2 := some (mapOperator op2), value2 := some (parse_value val2) }
  | _ => none

/-- Scan the haystack for the needle at any start position. -/
def containsSubAux (needle : List Char) : List Char → Bool
  | [] => needle.isEmpty
  | c :: t => needle.isPrefixOf (c :: t) || containsSubAux needle t

/-- Python `needle in haystack` on strings. -/
def containsSub (needle hay : String) : Bool := containsSubAux needle.toList hay.toList

/-- `_parse_matched_condition`: dispatch on substrings of the regex source
text, in source order. -/
def parse_matched_condition (src : String) (gs : List String) : Option Cond :=
  if containsSub "実行回数" src && containsSub "for type=" src then parse_type_count_condition gs
  else if containsSub "実行回数" src then parse_count_condition gs
  else if containsSub "累計" src && containsSub "実行回数" src then parse_total_count_condition gs
  else if containsSub "累計" src && containsSub "日次増分" src then parse_incremental_condition gs
  else if containsSub "累計" src then parse_total_metric_condition gs
  else if containsSub "1日内" src && containsSub "合計" src then parse_daily_total_condition gs
  else if containsSub "1日内" src && containsSub "かつ" src then parse_daily_compound_condition gs
  else if containsSub "1日内" src then parse_daily_condition gs
  else if containsSub "を1回完了" src && containsSub "月を含む" src then parse_moon_observation_condition gs
  else if containsSub "を1回完了" src then parse_completion_condition gs
  else if containsSub "を1回使用" src then parse_usage_condition gs
  else if containsSub "and" src || containsSub "かつ" src || containsSub "にて" src then parse_compound_condition gs
  else if containsSub "日連続" src && containsSub "改善" src then parse_improvement_condition gs
  else if containsSub "日連続" src && containsSub "50%以上維持" src then parse_maintenance_condition gs
  else if containsSub "日連続" src then parse_consecutive_condition gs
  else if containsSub "同日に両方実行" src then parse_same_day_condition gs
  else if containsSub "over" src then parse_over_period_condition gs
  else if containsSub "%" src then parse_percentage_condition gs
  else if containsSub "in" src && containsSub "のいずれか" src then parse_range_condition gs
  else if containsSub "/" src then parse_ratio_condition gs
  else if containsSub "×" src then parse_multiplication_condition gs
  else if containsSub "Pool ではなく Solo" src then parse_solo_mode_condition gs
  else parse_simple_condition gs

/-- The pattern loop of `parse_condition_text`: first pattern (in source
order) whose `re.search` succeeds, with its captured groups. -/
def template_match (s : String) : Option (String × List String) :=
  patterns.findSome? fun pat => (reSearch pat.toks s).map (fun gs => (pat.src, gs))

/-- `ConditionParser.parse_condition_text`: try the 29 patterns in order;
the first match is handed to `_parse_matched_condition`, and an unmatched
sentence yields the `unknown` default condition (never an exception). -/
def parse_condition_text (s : String) : Option Cond :=
  match template_match s with
  | some r => parse_matched_condition r.1 r.2
  | none =>
    some { ctype := some "unknown", action := some "unknown", description := some s }

/-- The compound daily-count-plus-metric sentence from the spec's template
table and §8. -/
def c1_sentence : String := "1日内の `mine_log` 回数 ≥ 1 かつ `power_usage_W` ≤ 0"

/-- C1: the claim says `parse_condition_text` on the sentence
`1日内の \`mine_log\` 回数 ≥ 1 かつ \`power_usage_W\` ≤ 0` returns a
`daily_compound` condition. It does not: the plain daily-count pattern
(index 4 in the source list) precedes the compound pattern (index 9), and
`re.search` finds it inside the longer sentence, so the parser returns a
`daily_action_count` condition and the `かつ` metric clause is silently
dropped; the compound pattern and `_parse_daily_compound_condition` are
unreachable. This theorem evaluates the model at the failing input. -/
theorem c1_compound_sentence_parses_as_daily_action_count :
    parse_condition_text c1_sentence =
      some { ctype := some "daily_action_count", action := some "mining",
             operator := some ">=", count := some 1 } := by decide

/-! Date handling: `mission_system.py` stores dates as `"%Y-%m-%d"` strings
and compares them with `datetime.strptime` plus `timedelta.days`. A date
string is parsed to a proleptic-Gregorian day ordinal, so that the ordinal
difference equals Python's `(d2 - d1).days` for midnight datetimes. -/

def isLeapYear (y : Nat) : Bool :=
  y % 4 = 0 && (y % 100 ≠ 0 || y % 400 = 0)

def daysInMonth (y m : Nat) : Nat :=
  if m = 2 then (if isLeapYear y then 29 else 28)
  else if m = 4 || m = 6 || m = 9 || m = 11 then 30
  else 31

/-- Day ordinal of a civil date (standard days-from-civil algorithm over
`Nat`, valid for year ≥ 1). -/
def civilOrdinal (y m d : Nat) : Nat :=
  let y' := if m ≤ 2 then y - 1 else y
  let era := y' / 400
  let yoe := y' - era * 400
  let mp := (m + 9) % 12
  let doy := (153 * mp + 2) / 5 + (d - 1)
  let doe := yoe * 365 + (yoe / 4 - yoe / 100) + doy
  era * 146097 + doe

def digitsValue (l : List Char) : Nat :=
  l.foldl (fun n c => n * 10 + (c.toNat - 48)) 0

/-- Model of `datetime.strptime(s, "%Y-%m-%d")` followed by `.toordinal()`:
`%Y` is exactly four digits, `%m`/`%d` one or two digits, ranges validated
(datetime rejects year 0, month 0/13, day beyond the month length); `none`
is `ValueError`. -/
def dateOrdinal (s : String) : Option Nat :=
  match splitOnChar '-' s.toList with
  | [ys, ms, ds] =>
    if ys.length = 4 && ys.all Char.isDigit
        && (1 ≤ ms.length && ms.length ≤ 2) && ms.all Char.isDigit
        && (1 ≤ ds.length && ds.length ≤ 2) && ds.all Char.isDigit then
      let y := digitsValue ys
      let m := digitsValue ms
      let d := digitsValue ds
      if 1 ≤ y && 1 ≤ m && m ≤ 12 && 1 ≤ d && d ≤ daysInMonth y m then
        some (civilOrdinal y m d)
      else none
    else none
  | _ => none

/-- `(strptime(a) - strptime(b)).days` for two `%Y-%m-%d` strings. -/
def dateDiffDays (a b : String) : Option Int :=
  match dateOrdinal a, dateOrdinal b with
  | some oa, some ob => some ((oa : Int) - ob)
  | _, _ => none

/-! State model of `MissionSystem.progress` and the action log. -/

/-- One entry of `action_logs` as written by `log_action`. -/
structure LogEntry where
  timestamp : String
  date : String
  action_type : String
  data : List (String × PValue)
deriving DecidableEq, Repr

/-- The `progress["daily_actions"]` dict: its `"date"` key plus the per-day
action counters (the other keys). -/
structure DailyActions where
  date : String
  counts : List (String × Int)
deriving DecidableEq, Repr

/-- The `progress["consecutive_days"]` dict: its `"advance_day"` counter and
`"last_date"` (None or a date string). -/
structure ConsecutiveDays where
  advance_day : Int
  last_date : Option String
deriving DecidableEq, Repr

/-- `MissionSystem.progress`. -/
structure Progress where
  completed_missions : List String
  unlocked_titles : List String
  action_counts : List (String × Int)
  daily_actions : DailyActions
  consecutive_days : ConsecutiveDays
  daily_metrics : List (String × Rat)
deriving DecidableEq, Repr

/-- The eight zeroed action counters of the default progress dict and of the
day-boundary reset in `update_action_count`. -/
def fresh_daily_counts : List (String × Int) :=
  [("mining", 0), ("cea", 0), ("power_plant", 0), ("astronomy", 0),
   ("build", 0), ("advance_day", 0), ("learning", 0), ("review_day", 0)]

/-- The three zeroed daily metric sums of the default progress dict and of
the day-boundary reset. -/
def fresh_daily_metrics : List (String × Rat) :=
  [("power_usage_W", 0), ("mined_amount_XMR", 0), ("expected_output_kwh_per_day", 0)]

/-- The default progress of `load_progress` (no progress file), with `today`
for `datetime.now().strftime("%Y-%m-%d")`. -/
def initial_progress (today : String) : Progress :=
  { completed_missions := []
    unlocked_titles := []
    action_counts := fresh_daily_counts
    daily_actions := { date := today, counts := fresh_daily_counts }
    consecutive_days := { advance_day := 0, last_date := none }
    daily_metrics := fresh_daily_metrics }

/-- `if key in dict: dict[key] += 1` on a counter dict. -/
def bumpKey : List (String × Int) → String → List (String × Int)
  | [], _ => []
  | (a, v) :: t, k => if a = k then (a, v + 1) :: t else (a, v) :: bumpKey t k

/-- The daily-actions half of the count update: membership in the
`daily_actions` dict includes the `"date"` key, whose value is a string, so
`+= 1` on it is a `TypeError` (`none`). -/
def bumpDaily (da : DailyActions) (k : String) : Option DailyActions :=
  if k = "date" then none
  else some { da with counts := bumpKey da.counts k }

/-- `MissionSystem.update_consecutive_days`, with `today` for
`datetime.now().strftime("%Y-%m-%d")`. An empty stored `last_date` string is
falsy in Python and takes the first-time branch; `none` is the `ValueError`
of `strptime` on an unparsable stored date. -/
def update_consecutive_days (cd : ConsecutiveDays) (today : String) :
    Option ConsecutiveDays :=
  match cd.last_date with
  | none => some { advance_day := 1, last_date := some today }
  | some ld =>
    if ld = "" then some { advance_day := 1, last_date := some today }
    else
      match dateDiffDays today ld with
      | none => none
      | some diff =>
        if diff = 1 then some { advance_day := cd.advance_day + 1, last_date := some today }
        else some { advance_day := 1, last_date := some today }

/-- `MissionSystem.update_action_count`, with `today` for
`datetime.now().strftime("%Y-%m-%d")`: lazily reset the daily counters and
daily metric sums on a date change, then increment the cumulative and daily
counters, then update the consecutive-days state for `advance_day` events
(file persistence is outside the model). -/
def update_action_count (p : Progress) (a today : String) : Option Progress :=
  let p1 :=
    if p.daily_actions.date ≠ today then
      { p with daily_actions := { date := today, counts := fresh_daily_counts }
               daily_metrics := fresh_daily_metrics }
    else p
  match bumpDaily p1.daily_actions a with
  | none => none
  | some da =>
    let p2 := { p1 with action_counts := bumpKey p1.action_counts a, daily_actions := da }
    if a = "advance_day" then
      match update_consecutive_days p2.consecutive_days today with
      | none => none
      | some cd => some { p2 with consecutive_days := cd }
    else some p2

/-- `metrics[k] += data[k]` for one fixed metric key, when present in the
event data: direct indexing of `metrics[k]` (`KeyError` if the stored dict
lacks the key) and Python `+` (a `TypeError` unless the value is numeric). -/
def addMetric (m : List (String × Rat)) (data : List (String × PValue))
    (k : String) : Option (List (String × Rat)) :=
  match data.lookup k with
  | none => some m
  | some v =>
    match m.lookup k, toNum v with
    | some cur, some q =>
      some (m.map fun p => if p.1 = k then (p.1, cur + q) else p)
    | _, _ => none

/-- `MissionSystem.update_daily_metrics`: accumulate the three known metric
keys of the event data into the daily sums. -/
def update_daily_metrics (p : Progress) (data : List (String × PValue)) :
    Option Progress := do
  let m1 ← addMetric p.daily_metrics data "power_usage_W"
  let m2 ← addMetric m1 data "mined_amount_XMR"
  let m3 ← addMetric m2 data "expected_output_kwh_per_day"
  some { p with daily_metrics := m3 }

/-! Python comparison operators on mixed values: numbers (bool/int/float)
compare by value; strings compare lexicographically by code point; `==`/`!=`
between a number and a string is `False`/`True`; ordered comparison between
a number and a string is a `TypeError` (`none`). -/

def pyEqB (a b : PValue) : Bool :=
  match toNum a, toNum b with
  | some x, some y => x = y
  | _, _ =>
    match a, b with
    | .vStr s, .vStr t => s = t
    | _, _ => false

def pyLe (a b : PValue) : Option Bool :=
  match toNum a, toNum b with
  | some x, some y => some (decide (x ≤ y))
  | _, _ =>
    match a, b with
    | .vStr s, .vStr t => some (decide (s ≤ t))
    | _, _ => none

def pyLt (a b : PValue) : Option Bool :=
  match toNum a, toNum b with
  | some x, some y => some (decide (x < y))
  | _, _ =>
    match a, b with
    | .vStr s, .vStr t => some (decide (s < t))
    | _, _ => none

def pyGe (a b : PValue) : Option Bool := pyLe b a

def pyGt (a b : PValue) : Option Bool := pyLt b a

/-- A mission or title dict: the fields the mission system reads. -/
structure Mission where
  id : String
  condition : Cond
deriving DecidableEq, Repr

/-- The `missions.json` shape. -/
structure Missions where
  main_missions : List Mission
  sub_missions : List Mission
deriving DecidableEq, Repr

/-- The four keys of a condition dict that `check_simple_condition` reads
(it is called both on top-level `simple` conditions and on the sub-dicts of
a `compound_and`). -/
def Cond.toSub (c : Cond) : SubCond :=
  { action := c.action, metric := c.metric, operator := c.operator, value := c.value }

/-- Python truthiness of the `action_data` argument: `None` and the empty
dict are falsy. -/
def truthyData : Option (List (String × PValue)) → Bool
  | none => false
  | some [] => false
  | some (_ :: _) => true

/-- `MissionSystem.check_simple_condition`. Reads `action`, then (when the
action matches and the data is truthy) `metric`, `operator`, `value`; a
missing metric in the event data is `False`; only the six listed operators
compare, anything else is `False`. -/
def check_simple_condition (c : SubCond) (a : String)
    (d : Option (List (String × PValue))) : Option Bool := do
  let act ← c.action
  if act ≠ a || !truthyData d then
    return false
  let met ← c.metric
  let op ← c.operator
  let tv ← c.value
  match (d.getD []).lookup met with
  | none => return false
  | some av =>
    if op = ">=" then pyGe av tv
    else if op = "<=" then pyLe av tv
    else if op = "==" then return (pyEqB av tv)
    else if op = "!=" then return (!pyEqB av tv)
    else if op = ">" then pyGt av tv
    else if op = "<" then pyLt av tv
    else return false

/-- `MissionSystem.check_total_action_count`: compare
`progress["action_counts"].get(action_type, 0)` under `>=`/`<=`/`==`. -/
def check_total_action_count (c : Cond) (a : String)
    (counts : List (String × Int)) : Option Bool := do
  let act ← c.action
  if act ≠ a then
    return false
  let cur := (counts.lookup a).getD 0
  let op ← c.operator
  let n ← c.count
  if op = ">=" then return (decide (cur ≥ n))
  else if op = "<=" then return (decide (cur ≤ n))
  else if op = "==" then return (decide (cur = n))
  else return false

/-- `MissionSystem.check_daily_action_count`: like the total count but on
`progress["daily_actions"].get(action_type, 0)` — a dict that also holds the
`"date"` key, whose string value would then be compared with the int target
(equality is `False`, order is a `TypeError`). -/
def check_daily_action_count (c : Cond) (a : String) (da : DailyActions) :
    Option Bool := do
  let act ← c.action
  if act ≠ a then
    return false
  let cur : PValue :=
    if a = "date" then .vStr da.date else .vInt ((da.counts.lookup a).getD 0)
  let op ← c.operator
  let n ← c.count
  if op = ">=" then pyGe cur (.vInt n)
  else if op = "<=" then pyLe cur (.vInt n)
  else if op = "==" then return (pyEqB cur (.vInt n))
  else return false

/-- `MissionSystem.check_completion_condition`: reads the `condition` key,
then returns `True` (the commented "simplified implementation"). -/
def check_completion_condition (c : Cond) (a : String)
    (d : Option (List (String × PValue))) : Option Bool := do
  let act ← c.action
  if act ≠ a || !truthyData d then
    return false
  let _ ← c.condition_text
  return true

/-- The loop of `check_compound_and_condition`. -/
def check_subconds : List SubCond → String → Option (List (String × PValue)) →
    Option Bool
  | [], _, _ => some true
  | c :: t, a, d => do
    let b ← check_simple_condition c a d
    if b then check_subconds t a d else return false

/-- `MissionSystem.check_compound_and_condition`. -/
def check_compound_and_condition (c : Cond) (a : String)
    (d : Option (List (String × PValue))) : Option Bool := do
  let subs ← c.conditions
  check_subconds subs a d

/-- `MissionSystem.check_consecutive_days_condition`:
`progress["consecutive_days"].get(action_type, 0) >= days`. The dict's keys
are `"advance_day"` and `"last_date"`; fetching `"last_date"` yields a
string or `None`, and `>=` against the int target is then a `TypeError`. -/
def check_consecutive_days_condition (c : Cond) (a : String)
    (cd : ConsecutiveDays) : Option Bool := do
  let act ← c.action
  if act ≠ a then
    return false
  let days ← c.days
  if a = "last_date" then
    none
  else
    let cur : Int := if a = "advance_day" then cd.advance_day else 0
    return (decide (cur ≥ days))

/-- Python `lst[-days:]` for an `int` count: the last `days` elements when
`days > 0` (clamped), the whole list when `days = 0` (since `-0 == 0`), and
`lst[-days:]` = `drop (-days)` when `days < 0`. -/
def pyTail (days : Int) (l : List LogEntry) : List LogEntry :=
  if 0 < days then l.drop (l.length - days.toNat) else l.drop (-days).toNat

/-- The strict-increase loop of `check_incremental_increase_condition`:
`False` as soon as `values[i] <= values[i-1]`, `True` past the end. -/
def incr_check : List PValue → Option Bool
  | [] => some true
  | [_] => some true
  | a :: b :: t => do
    let le ← pyLe b a
    if le then return false else incr_check (b :: t)

/-- `MissionSystem.check_incremental_increase_condition`: filter the last
`days` entries of the whole log down to those carrying the metric, require
at least `days` of them, then require strictly increasing values. -/
def check_incremental_increase_condition (c : Cond) (logs : List LogEntry) :
    Option Bool := do
  let met ← c.metric
  let days ← c.days
  let recent := (pyTail days logs).filter fun l => (l.data.lookup met).isSome
  if (recent.length : Int) < days then
    return false
  let vals ← recent.mapM fun l => l.data.lookup met
  incr_check vals

/-- `MissionSystem.check_same_day_both_condition`: both listed actions must
appear among today's log entries; only `>=`/`==` on the stored count. -/
def check_same_day_both_condition (c : Cond) (logs : List LogEntry)
    (today : String) : Option Bool := do
  let acts ← c.actions
  let op ← c.operator
  let n ← c.count
  let todayActs := (logs.filter fun l => l.date = today).map (fun l => l.action_type)
  let both := acts.all fun x => todayActs.contains x
  if op = ">=" then return (both && decide (n ≥ 1))
  else if op = "==" then return (both && decide (n = 1))
  else return false

/-- The window loop of `check_over_period_condition`: `False` when a
qualifying entry violates the `>=`/`<=` bound; other operators never
fail. -/
def over_loop (op : String) (tv : PValue) (met : String) :
    List LogEntry → Option Bool
  | [] => some true
  | l :: t => do
    match l.data.lookup met with
    | none => none
    | some av =>
      if op = ">=" then do
        let lt ← pyLt av tv
        if lt then return false else over_loop op tv met t
      else if op = "<=" then do
        let gt ← pyGt av tv
        if gt then return false else over_loop op tv met t
      else over_loop op tv met t

/-- `MissionSystem.check_over_period_condition`. -/
def check_over_period_condition (c : Cond) (a : String)
    (d : Option (List (String × PValue))) (logs : List LogEntry) : Option Bool := do
  let act ← c.action
  if act ≠ a || !truthyData d then
    return false
  let met ← c.metric
  let op ← c.operator
  let tv ← c.value
  let days ← c.days
  let recent := (pyTail days logs).filter fun l =>
    l.action_type = a && (l.data.lookup met).isSome
  if recent.isEmpty then
    return false
  over_loop op tv met recent

/-- `MissionSystem.check_percentage_condition`: reads its keys, checks the
metric is present on the event, then returns `True` (the commented
"simplified implementation"). -/
def check_percentage_condition (c : Cond) (a : String)
    (d : Option (List (String × PValue))) : Option Bool := do
  let act ← c.action
  if act ≠ a || !truthyData d then
    return false
  let met ← c.metric
  let _ ← c.operator
  let _ ← c.percentage
  match (d.getD []).lookup met with
  | none => return false
  | some _ => return true

/-- `MissionSystem.check_range_condition`: membership of the event's metric
value in the stored list (Python `in`, i.e. `==` against each element). -/
def check_range_condition (c : Cond) (a : String)
    (d : Option (List (String × PValue))) : Option Bool := do
  let act ← c.action
  if act ≠ a || !truthyData d then
    return false
  let met ← c.metric
  let vals ← c.values
  match (d.getD []).lookup met with
  | none => return false
  | some av => return (vals.any fun v => pyEqB av (.vInt v))

/-- `MissionSystem.check_mission_condition`, dispatching on the condition's
`type` tag exactly as the `if/elif` chain does; a tag with no branch falls
through to `False`. Reads the progress state only through the counter
fields passed here. -/
def check_cond_core (c : Cond) (a : String) (d : Option (List (String × PValue)))
    (counts : List (String × Int)) (da : DailyActions) (cd : ConsecutiveDays)
    (logs : List LogEntry) (today : String) : Option Bool := do
  let t ← c.ctype
  if t = "simple" then check_simple_condition c.toSub a d
  else if t = "total_action_count" then check_total_action_count c a counts
  else if t = "daily_action_count" then check_daily_action_count c a da
  else if t = "completion" then check_completion_condition c a d
  else if t = "compound_and" then check_compound_and_condition c a d
  else if t = "consecutive_days" then check_consecutive_days_condition c a cd
  else if t = "incremental_increase" then check_incremental_increase_condition c logs
  else if t = "same_day_both" then check_same_day_both_condition c logs today
  else if t = "over_period" then check_over_period_condition c a d logs
  else if t = "percentage" then check_percentage_condition c a d
  else if t = "range_check" then check_range_condition c a d
  else if t = "first_action" then do
    let act ← c.action
    if act = a then
      match counts.lookup a with
      | none => none
      | some v => return (decide (v = 1))
    else return false
  else return false

/-- `check_mission_condition` on a mission/title and the full progress. -/
def check_mission_condition (m : Mission) (a : String)
    (d : Option (List (String × PValue))) (p : Progress) (logs : List LogEntry)
    (today : String) : Option Bool :=
  check_cond_core m.condition a d p.action_counts p.daily_actions
    p.consecutive_days logs today

/-- One mission-list loop of `check_missions` / `check_titles`: skip ids
already in the completed list, evaluate the rest, append newly completed
ids; only the completed-id list changes, the counters are read-only here. -/
def check_mission_list (a : String) (d : Option (List (String × PValue)))
    (counts : List (String × Int)) (da : DailyActions) (cd : ConsecutiveDays)
    (logs : List LogEntry) (today : String) :
    List Mission → List String → Option (List Mission × List String)
  | [], cm => some ([], cm)
  | m :: ms, cm =>
    if m.id ∈ cm then check_mission_list a d counts da cd logs today ms cm
    else
      match check_cond_core m.condition a d counts da cd logs today with
      | none => none
      | some true =>
        match check_mission_list a d counts da cd logs today ms (cm ++ [m.id]) with
        | none => none
        | some (res, cm') => some (m :: res, cm')
      | some false => check_mission_list a d counts da cd logs today ms cm

/-- `MissionSystem.check_missions`: main missions then sub missions, both
against `progress["completed_missions"]`; returns the newly completed
missions and the updated progress. -/
def check_missions (msns : Missions) (p : Progress) (a : String)
    (d : Option (List (String × PValue))) (logs : List LogEntry)
    (today : String) : Option (List Mission × Progress) :=
  match check_mission_list a d p.action_counts p.daily_actions p.consecutive_days
      logs today msns.main_missions p.completed_missions with
  | none => none
  | some (r1, cm1) =>
    match check_mission_list a d p.action_counts p.daily_actions p.consecutive_days
        logs today msns.sub_missions cm1 with
    | none => none
    | some (r2, cm2) => some (r1 ++ r2, { p with completed_missions := cm2 })

/-- `MissionSystem.check_titles`: one loop over the titles against
`progress["unlocked_titles"]`. -/
def check_titles (titles : List Mission) (p : Progress) (a : String)
    (d : Option (List (String × PValue))) (logs : List LogEntry)
    (today : String) : Option (List Mission × Progress) :=
  match check_mission_list a d p.action_counts p.daily_actions p.consecutive_days
      logs today titles p.unlocked_titles with
  | none => none
  | some (r, ut) => some (r, { p with unlocked_titles := ut })

/-! C2: the end-to-end daily-compound scenario. -/

/-- The event data of the spec's end-to-end scenario:
`{actionType: "mine_log", metrics: {power_usage_W: 15}}`. -/
def c2_data : List (String × PValue) := [("power_usage_W", .vInt 15)]

/-- `DailyCompound(mine_log, >=, 1, power_usage_W, <=, 20)` in the shape
`_parse_daily_compound_condition` would emit. -/
def c2_condition : Cond :=
  { ctype := some "daily_compound", action := some "mining",
    action_operator := some ">=", action_count := some 1,
    metric := some "power_usage_W", metric_operator := some "<=",
    metric_value := some (.vInt 20) }

/-- Progress after recording one such mining event on 2024-01-05 (the
`log_action` pipeline: count update then daily-metrics update). -/
def c2_progress : Option Progress :=
  (update_action_count (initial_progress "2024-01-05") "mining" "2024-01-05").bind
    fun p => update_daily_metrics p c2_data

def c2_logs : List LogEntry :=
  [{ timestamp := "2024-01-05T10:00:00", date := "2024-01-05",
     action_type := "mining", data := c2_data }]

/-- C2: the claim says this daily-compound condition evaluates to true via
`check_mission_condition` after the first qualifying event of the day.  It
does not: the `if/elif` dispatch of `check_mission_condition` has no branch
for the type tag `daily_compound`, so the function falls through to its
final `return False` — the state (daily mining count 1, daily power sum 15)
satisfies both clauses, yet the result is false. -/
theorem c2_daily_compound_evaluates_false :
    c2_progress.bind
        (fun p => check_mission_condition { id := "m_c2", condition := c2_condition }
          "mining" (some c2_data) p c2_logs "2024-01-05")
      = some false := by decide

/-! C3: the `advance_day` streak update. -/

/-- C3: the claim says an `advance_day` event whose date equals the stored
`last_date` leaves the streak counter unchanged.  The code's
`update_consecutive_days` only distinguishes `(current - last).days == 1`
from everything else, so an equal date (difference 0) takes the reset
branch: a streak of 2 becomes 1, not 2. This theorem evaluates the model at
that failing input (the claim's other cases — increment on difference 1,
reset otherwise, `last_date` always updated — do hold in the code). -/
theorem c3_same_date_event_resets_streak :
    update_consecutive_days
        { advance_day := 2, last_date := some "2024-01-05" } "2024-01-05"
      = some { advance_day := 1, last_date := some "2024-01-05" } := by decide

/-! C5: the lazy day-boundary reset of `update_action_count`. -/

/-- C5: when an event arrives on a date different from the stored daily
date, `update_action_count` zeroes every per-day action counter and every
daily metric sum and stores the new date, all before applying the event's
own increment (the daily counters end up as the fresh zeroed dict with just
this event's bump), while the cumulative `action_counts` receive only the
event's increment — the reset leaves them unchanged. (`a ≠ "date"` excludes
the `TypeError` of incrementing the dict's `"date"` key.) -/
theorem c5_day_boundary_reset (p : Progress) (a today : String)
    (hdate : p.daily_actions.date ≠ today) (ha : a ≠ "date") :
    ∀ q, update_action_count p a today = some q →
      q.action_counts = bumpKey p.action_counts a ∧
      q.daily_actions = { date := today, counts := bumpKey fresh_daily_counts a } ∧
      q.daily_metrics = fresh_daily_metrics := by
  intro q hq
  simp only [update_action_count, bumpDaily, if_pos hdate, if_neg ha] at hq
  by_cases hadv : a = "advance_day"
  · rw [if_pos hadv] at hq
    cases hcd : update_consecutive_days
        ({ p with daily_actions := { date := today, counts := fresh_daily_counts }
                  daily_metrics := fresh_daily_metrics } : Progress).consecutive_days
        today with
    | none => rw [hcd] at hq; cases hq
    | some cd =>
      rw [hcd] at hq
      cases hq
      exact ⟨rfl, rfl, rfl⟩
  · rw [if_neg hadv] at hq
    cases hq
    exact ⟨rfl, rfl, rfl⟩

def c5_example_input : Progress := initial_progress "2024-01-04"

def c5_example_result : Progress :=
  (update_action_count c5_example_input "mining" "2024-01-05").getD c5_example_input

theorem c5_day_boundary_reset_witness :
    c5_example_result.action_counts = bumpKey c5_example_input.action_counts "mining" ∧
    c5_example_result.daily_actions
      = { date := "2024-01-05", counts := bumpKey fresh_daily_counts "mining" } ∧
    c5_example_result.daily_metrics = fresh_daily_metrics :=
  c5_day_boundary_reset c5_example_input "mining" "2024-01-05" (by decide) (by decide)
    c5_example_result (by decide)

/-! C6: monotone threshold behaviour of `total_action_count` conditions. -/

theorem lookup_bumpKey_self (l : List (String × Int)) (k : String) :
    (bumpKey l k).lookup k = (l.lookup k).map (· + 1) := by
  induction l with
  | nil => rfl
  | cons hd t ih =>
    obtain ⟨a, v⟩ := hd
    by_cases hak : a = k
    · subst hak
      simp [bumpKey, List.lookup]
    · have hba : (k == a) = false := beq_eq_false_iff_ne.mpr (Ne.symm hak)
      simp [bumpKey, hak, List.lookup, hba, ih]

/-- For a non-`advance_day`, non-`"date"` action, `update_action_count`
always succeeds and adds exactly one to the cumulative counter dict. -/
theorem update_action_count_nonadv (p : Progress) (a day : String)
    (ha : a ≠ "date") (hadv : a ≠ "advance_day") :
    ∃ q, update_action_count p a day = some q ∧
      q.action_counts = bumpKey p.action_counts a := by
  unfold update_action_count bumpDaily
  by_cases hd : p.daily_actions.date ≠ day
  · simp only [if_pos hd, if_neg ha, if_neg hadv]
    exact ⟨_, rfl, rfl⟩
  · simp only [if_neg hd, if_neg ha, if_neg hadv]
    exact ⟨_, rfl, rfl⟩

/-- The condition `TotalActionCount(mine_log, >=, 3)` as the parser emits
it. -/
def c6_condition : Cond :=
  { ctype := some "total_action_count", action := some "mining",
    operator := some ">=", count := some 3 }

def c6_mission : Mission := { id := "m_c6", condition := c6_condition }

/-- Record a sequence of mining events (one per date in `dates`, dates
arbitrary) starting from the default progress created on `d0`. -/
def record_mining (d0 : String) (dates : List String) : Option Progress :=
  dates.foldl (fun op day => op.bind fun p => update_action_count p "mining" day)
    (some (initial_progress d0))

theorem record_mining_counts :
    ∀ (dates : List String) (p : Progress) (k : Int),
      p.action_counts.lookup "mining" = some k →
      ∃ q, dates.foldl (fun op day => op.bind fun p => update_action_count p "mining" day)
            (some p) = some q ∧
        q.action_counts.lookup "mining" = some (k + dates.length) := by
  intro dates
  induction dates with
  | nil =>
    intro p k h
    exact ⟨p, rfl, by simpa using h⟩
  | cons day rest ih =>
    intro p k h
    obtain ⟨q1, hq1, hq1c⟩ :=
      update_action_count_nonadv p "mining" day (by decide) (by decide)
    have hl : q1.action_counts.lookup "mining" = some (k + 1) := by
      rw [hq1c, lookup_bumpKey_self, h]
      rfl
    obtain ⟨q, hq, hqc⟩ := ih q1 (k + 1) hl
    refine ⟨q, ?_, ?_⟩
    · simpa [List.foldl, hq1] using hq
    · rw [hqc]
      simp only [List.length_cons]
      congr 1
      push_cast
      ring

/-- C6: starting from zero recorded events, after any sequence of mining
events the condition `TotalActionCount(mining, >=, 3)` checked through
`check_mission_condition` is false while fewer than three events have been
recorded, becomes true exactly at the third, and stays true afterwards: the
result equals `3 ≤ number of events`, monotone in the event count. -/
theorem c6_total_count_threshold (d0 : String) (dates : List String) :
    ∃ q, record_mining d0 dates = some q ∧
      ∀ (d : Option (List (String × PValue))) (logs : List LogEntry) (today : String),
        check_mission_condition c6_mission "mining" d q logs today
          = some (decide (3 ≤ dates.length)) := by
  obtain ⟨q, hq, hc⟩ :=
    record_mining_counts dates (initial_progress d0) 0 rfl
  refine ⟨q, hq, ?_⟩
  intro d logs today
  have hcore : check_mission_condition c6_mission "mining" d q logs today
      = some (decide ((q.action_counts.lookup "mining").getD 0 ≥ 3)) := rfl
  rw [hcore, hc]
  simp only [Option.getD_some]
  congr 1
  rw [decide_eq_decide]
  omega

/-! C4: completed ids are skipped forever. -/

section Folds

variable (a : String) (d : Option (List (String × PValue)))
  (counts : List (String × Int)) (da : DailyActions) (cd : ConsecutiveDays)
  (logs : List LogEntry) (today : String)

/-- The completed-id list only grows along the mission loop. -/
theorem check_mission_list_mono :
    ∀ (ms : List Mission) (cm : List String) (res : List Mission) (cm' : List String),
      check_mission_list a d counts da cd logs today ms cm = some (res, cm') →
      ∀ x ∈ cm, x ∈ cm' := by
  intro ms
  induction ms with
  | nil =>
    intro cm res cm' h x hx
    cases h
    exact hx
  | cons m t ih =>
    intro cm res cm' h x hx
    rw [check_mission_list] at h
    by_cases hm : m.id ∈ cm
    · rw [if_pos hm] at h
      exact ih cm res cm' h x hx
    · rw [if_neg hm] at h
      cases hchk : check_cond_core m.condition a d counts da cd logs today with
      | none => rw [hchk] at h; cases h
      | some b =>
        rw [hchk] at h
        cases b with
        | true =>
          cases hrec : check_mission_list a d counts da cd logs today t (cm ++ [m.id]) with
          | none => rw [hrec] at h; cases h
          | some rc =>
            obtain ⟨res2, cm2⟩ := rc
            rw [hrec] at h
            simp only [Option.some.injEq, Prod.mk.injEq] at h
            rw [← h.2]
            exact ih (cm ++ [m.id]) res2 cm2 hrec x (List.mem_append_left _ hx)
        | false => exact ih cm res cm' h x hx

/-- An id already in the completed list is skipped: removing that mission
from the list does not change the loop's result at all (it is neither
re-evaluated, nor returned, nor appended again). -/
theorem check_mission_list_skip :
    ∀ (msA : List Mission) (m : Mission) (msB : List Mission) (cm : List String),
      m.id ∈ cm →
      check_mission_list a d counts da cd logs today (msA ++ m :: msB) cm
        = check_mission_list a d counts da cd logs today (msA ++ msB) cm := by
  intro msA
  induction msA with
  | nil =>
    intro m msB cm hm
    rw [List.nil_append, List.nil_append, check_mission_list, if_pos hm]
  | cons x t ih =>
    intro m msB cm hm
    rw [List.cons_append, List.cons_append, check_mission_list, check_mission_list]
    by_cases hx : x.id ∈ cm
    · rw [if_pos hx, if_pos hx, ih m msB cm hm]
    · rw [if_neg hx, if_neg hx]
      cases hchk : check_cond_core x.condition a d counts da cd logs today with
      | none => rfl
      | some b =>
        cases b with
        | true => rw [ih m msB (cm ++ [x.id]) (List.mem_append_left _ hm)]
        | false => exact ih m msB cm hm

/-- Every mission returned by the loop had its condition evaluate to
`some true` (against the read-only counter state). -/
theorem check_mission_list_mem_res :
    ∀ (ms : List Mission) (cm : List String) (res : List Mission) (cm' : List String),
      check_mission_list a d counts da cd logs today ms cm = some (res, cm') →
      ∀ x ∈ res, check_cond_core x.condition a d counts da cd logs today = some true := by
  intro ms
  induction ms with
  | nil =>
    intro cm res cm' h x hx
    cases h
    cases hx
  | cons m t ih =>
    intro cm res cm' h x hx
    rw [check_mission_list] at h
    by_cases hm : m.id ∈ cm
    · rw [if_pos hm] at h
      exact ih cm res cm' h x hx
    · rw [if_neg hm] at h
      cases hchk : check_cond_core m.condition a d counts da cd logs today with
      | none => rw [hchk] at h; cases h
      | some b =>
        rw [hchk] at h
        cases b with
        | true =>
          cases hrec : check_mission_list a d counts da cd logs today t (cm ++ [m.id]) with
          | none => rw [hrec] at h; cases h
          | some rc =>
            obtain ⟨res2, cm2⟩ := rc
            rw [hrec] at h
            simp only [Option.some.injEq, Prod.mk.injEq] at h
            obtain ⟨hres, hcm⟩ := h
            subst hres
            rcases List.mem_cons.mp hx with hxm | hxr
            · subst hxm; exact hchk
            · exact ih (cm ++ [m.id]) res2 cm2 hrec x hxr
        | false => exact ih cm res cm' h x hx

end Folds

/-- C4: once a mission id is in `completed_missions` (or a title id in
`unlocked_titles`), every later `check_missions` (or `check_titles`) call
skips that mission: deleting it from the mission list gives the identical
result, so it is never re-evaluated, never returned again, and its id is
never appended a second time. -/
theorem c4_completed_ids_skipped_forever :
    (∀ (p : Progress) (a : String) (d : Option (List (String × PValue)))
        (logs : List LogEntry) (today : String)
        (msA : List Mission) (m : Mission) (msB subs : List Mission),
        m.id ∈ p.completed_missions →
        check_missions ⟨msA ++ m :: msB, subs⟩ p a d logs today
          = check_missions ⟨msA ++ msB, subs⟩ p a d logs today)
    ∧ (∀ (p : Progress) (a : String) (d : Option (List (String × PValue)))
        (logs : List LogEntry) (today : String)
        (mains : List Mission) (msA : List Mission) (m : Mission) (msB : List Mission),
        m.id ∈ p.completed_missions →
        check_missions ⟨mains, msA ++ m :: msB⟩ p a d logs today
          = check_missions ⟨mains, msA ++ msB⟩ p a d logs today)
    ∧ (∀ (p : Progress) (a : String) (d : Option (List (String × PValue)))
        (logs : List LogEntry) (today : String)
        (tsA : List Mission) (t : Mission) (tsB : List Mission),
        t.id ∈ p.unlocked_titles →
        check_titles (tsA ++ t :: tsB) p a d logs today
          = check_titles (tsA ++ tsB) p a d logs today) := by
  refine ⟨?_, ?_, ?_⟩
  · intro p a d logs today msA m msB subs hm
    unfold check_missions
    rw [check_mission_list_skip a d p.action_counts p.daily_actions p.consecutive_days
      logs today msA m msB p.completed_missions hm]
  · intro p a d logs today mains msA m msB hm
    unfold check_missions
    cases hmain : check_mission_list a d p.action_counts p.daily_actions
        p.consecutive_days logs today mains p.completed_missions with
    | none => rfl
    | some rc =>
      obtain ⟨r1, cm1⟩ := rc
      have hmem : m.id ∈ cm1 :=
        check_mission_list_mono a d p.action_counts p.daily_actions p.consecutive_days
          logs today mains p.completed_missions r1 cm1 hmain m.id hm
      dsimp only
      rw [check_mission_list_skip a d p.action_counts p.daily_actions p.consecutive_days
        logs today msA m msB cm1 hmem]
  · intro p a d logs today tsA t tsB hm
    unfold check_titles
    rw [check_mission_list_skip a d p.action_counts p.daily_actions p.consecutive_days
      logs today tsA t tsB p.unlocked_titles hm]

def c4_example_mission : Mission :=
  { id := "done1", condition := { ctype := some "simple" } }

def c4_example_progress : Progress :=
  { initial_progress "2024-01-05" with
    completed_missions := ["done1"], unlocked_titles := ["done1"] }

theorem c4_completed_ids_skipped_forever_witness :
    check_missions ⟨[] ++ c4_example_mission :: [], []⟩ c4_example_progress
        "mining" none [] "2024-01-05"
      = check_missions ⟨[] ++ [], []⟩ c4_example_progress "mining" none [] "2024-01-05" ∧
    check_missions ⟨[], [] ++ c4_example_mission :: []⟩ c4_example_progress
        "mining" none [] "2024-01-05"
      = check_missions ⟨[], [] ++ []⟩ c4_example_progress "mining" none [] "2024-01-05" ∧
    check_titles ([] ++ c4_example_mission :: []) c4_example_progress
        "mining" none [] "2024-01-05"
      = check_titles ([] ++ []) c4_example_progress "mining" none [] "2024-01-05" :=
  ⟨c4_completed_ids_skipped_forever.1 c4_example_progress "mining" none [] "2024-01-05"
      [] c4_example_mission [] [] (by decide),
   c4_completed_ids_skipped_forever.2.1 c4_example_progress "mining" none [] "2024-01-05"
      [] [] c4_example_mission [] (by decide),
   c4_completed_ids_skipped_forever.2.2 c4_example_progress "mining" none [] "2024-01-05"
      [] c4_example_mission [] (by decide)⟩

/-! C7 / C10: type tags without a dispatch branch always evaluate false. -/

/-- A condition whose type tag matches none of the twelve dispatched tags
falls through `check_mission_condition`'s `if/elif` chain to `return
False`. -/
theorem check_cond_core_no_branch (c : Cond) (a : String)
    (d : Option (List (String × PValue))) (counts : List (String × Int))
    (da : DailyActions) (cd : ConsecutiveDays) (logs : List LogEntry)
    (today : String) (t : String) (hc : c.ctype = some t)
    (h1 : t ≠ "simple") (h2 : t ≠ "total_action_count")
    (h3 : t ≠ "daily_action_count") (h4 : t ≠ "completion")
    (h5 : t ≠ "compound_and") (h6 : t ≠ "consecutive_days")
    (h7 : t ≠ "incremental_increase") (h8 : t ≠ "same_day_both")
    (h9 : t ≠ "over_period") (h10 : t ≠ "percentage")
    (h11 : t ≠ "range_check") (h12 : t ≠ "first_action") :
    check_cond_core c a d counts da cd logs today = some false := by
  unfold check_cond_core
  rw [hc]
  dsimp only [Option.bind_eq_bind, Option.some_bind]
  rw [if_neg h1, if_neg h2, if_neg h3, if_neg h4, if_neg h5, if_neg h6, if_neg h7,
    if_neg h8, if_neg h9, if_neg h10, if_neg h11, if_neg h12]
  rfl

/-- A mission whose condition evaluates to `some false` is never part of the
newly-completed result of `check_missions`. -/
theorem not_mem_check_missions_result (m : Mission) (p : Progress) (a : String)
    (d : Option (List (String × PValue))) (logs : List LogEntry) (today : String)
    (hfalse : check_cond_core m.condition a d p.action_counts p.daily_actions
        p.consecutive_days logs today = some false) :
    ∀ (msns : Missions) (res : List Mission) (p' : Progress),
      check_missions msns p a d logs today = some (res, p') → m ∉ res := by
  intro msns res p' h hmem
  unfold check_missions at h
  split at h
  · cases h
  · rename_i r1 cm1 heq1
    split at h
    · cases h
    · rename_i r2 cm2 heq2
      simp only [Option.some.injEq, Prod.mk.injEq] at h
      obtain ⟨hres, _⟩ := h
      subst hres
      rcases List.mem_append.mp hmem with hr | hr
      · have := check_mission_list_mem_res a d p.action_counts p.daily_actions
          p.consecutive_days logs today msns.main_missions p.completed_missions
          r1 cm1 heq1 m hr
        rw [hfalse] at this
        cases this
      · have := check_mission_list_mem_res a d p.action_counts p.daily_actions
          p.consecutive_days logs today msns.sub_missions cm1 r2 cm2 heq2 m hr
        rw [hfalse] at this
        cases this

/-- C7: a sentence matching none of the 29 templates parses to the
`unknown` default condition (and parsing is a total function — never an
exception); a condition with type tag `unknown` always evaluates to false
through `check_mission_condition` (no dispatch branch); and such a mission
is never part of the newly-completed result of `check_missions`, so it is
never added to `completed_missions`. -/
theorem c7_unknown_conditions_never_complete :
    (∀ s : String, template_match s = none →
        parse_condition_text s
          = some { ctype := some "unknown", action := some "unknown",
                   description := some s })
    ∧ (∀ (m : Mission) (a : String) (d : Option (List (String × PValue)))
        (p : Progress) (logs : List LogEntry) (today : String),
        m.condition.ctype = some "unknown" →
        check_mission_condition m a d p logs today = some false)
    ∧ (∀ (m : Mission) (a : String) (d : Option (List (String × PValue)))
        (p : Progress) (logs : List LogEntry) (today : String)
        (msns : Missions) (res : List Mission) (p' : Progress),
        m.condition.ctype = some "unknown" →
        check_missions msns p a d logs today = some (res, p') → m ∉ res) := by
  refine ⟨?_, ?_, ?_⟩
  · intro s h
    unfold parse_condition_text
    rw [h]
  · intro m a d p logs today hu
    exact check_cond_core_no_branch m.condition a d p.action_counts p.daily_actions
      p.consecutive_days logs today "unknown" hu (by decide) (by decide) (by decide)
      (by decide) (by decide) (by decide) (by decide) (by decide) (by decide)
      (by decide) (by decide) (by decide)
  · intro m a d p logs today msns res p' hu h
    exact not_mem_check_missions_result m p a d logs today
      (check_cond_core_no_branch m.condition a d p.action_counts p.daily_actions
        p.consecutive_days logs today "unknown" hu (by decide) (by decide) (by decide)
        (by decide) (by decide) (by decide) (by decide) (by decide) (by decide)
        (by decide) (by decide) (by decide))
      msns res p' h

def c7_example_mission : Mission :=
  { id := "m_unknown",
    condition := { ctype := some "unknown", action := some "unknown",
                   description := some "???" } }

theorem c7_unknown_conditions_never_complete_witness :
    parse_condition_text "hello world"
        = some { ctype := some "unknown", action := some "unknown",
                 description := some "hello world" } ∧
    check_mission_condition c7_example_mission "mining" none
        (initial_progress "2024-01-05") [] "2024-01-05" = some false ∧
    c7_example_mission ∉ ([] : List Mission) :=
  ⟨c7_unknown_conditions_never_complete.1 "hello world" (by decide),
   c7_unknown_conditions_never_complete.2.1 c7_example_mission "mining" none
     (initial_progress "2024-01-05") [] "2024-01-05" rfl,
   c7_unknown_conditions_never_complete.2.2 c7_example_mission "mining" none
     (initial_progress "2024-01-05") [] "2024-01-05"
     ⟨[c7_example_mission], []⟩ [] (initial_progress "2024-01-05") rfl (by decide)⟩

/-- The type tags that appear as outputs in the `_parse_*` builder functions
but have no branch in `check_mission_condition`'s dispatch. -/
def no_branch_types : List String :=
  ["usage", "total_metric", "daily_total_metric", "daily_compound",
   "consecutive_improvement", "consecutive_maintenance", "ratio",
   "multiplication", "moon_observation", "solo_mode", "type_action_count",
   "over_period_total"]

/-- C10: for every condition whose type tag is one of the parser-side tags
with no dispatch branch in `check_mission_condition` (usage, total_metric,
daily_total_metric, daily_compound, consecutive_improvement,
consecutive_maintenance, ratio, multiplication, moon_observation,
solo_mode, type_action_count, over_period_total), the check returns false
for every triggering event and state, and a mission carrying such a
condition never appears in the newly-completed result of
`check_missions`. -/
theorem c10_no_branch_types_never_complete :
    ∀ t ∈ no_branch_types,
      ∀ (m : Mission) (a : String) (d : Option (List (String × PValue)))
        (p : Progress) (logs : List LogEntry) (today : String),
        m.condition.ctype = some t →
        check_mission_condition m a d p logs today = some false ∧
        (∀ (msns : Missions) (res : List Mission) (p' : Progress),
            check_missions msns p a d logs today = some (res, p') → m ∉ res) := by
  have hall : ∀ t' ∈ no_branch_types,
      t' ≠ "simple" ∧ t' ≠ "total_action_count" ∧ t' ≠ "daily_action_count"
      ∧ t' ≠ "completion" ∧ t' ≠ "compound_and" ∧ t' ≠ "consecutive_days"
      ∧ t' ≠ "incremental_increase" ∧ t' ≠ "same_day_both" ∧ t' ≠ "over_period"
      ∧ t' ≠ "percentage" ∧ t' ≠ "range_check" ∧ t' ≠ "first_action" := by decide
  intro t ht m a d p logs today hc
  obtain ⟨n1, n2, n3, n4, n5, n6, n7, n8, n9, n10, n11, n12⟩ := hall t ht
  have hfalse := check_cond_core_no_branch m.condition a d p.action_counts
    p.daily_actions p.consecutive_days logs today t hc n1 n2 n3 n4 n5 n6 n7 n8 n9
    n10 n11 n12
  exact ⟨hfalse, fun msns res p' h =>
    not_mem_check_missions_result m p a d logs today hfalse msns res p' h⟩

def c10_example_mission : Mission :=
  { id := "m_daily_compound", condition := { ctype := some "daily_compound" } }

theorem c10_no_branch_types_never_complete_witness :
    check_mission_condition c10_example_mission "mining" none
        (initial_progress "2024-01-05") [] "2024-01-05" = some false ∧
    c10_example_mission ∉ ([] : List Mission) :=
  have h := c10_no_branch_types_never_complete "daily_compound" (by decide)
    c10_example_mission "mining" none (initial_progress "2024-01-05") [] "2024-01-05" rfl
  ⟨h.1, h.2 ⟨[c10_example_mission], []⟩ [] (initial_progress "2024-01-05") (by decide)⟩

/-! C9: the window of `check_incremental_increase_condition`. -/

/-- Strictly-increasing test on adjacent pairs of a rational list. -/
def chainIncrB : List Rat → Bool
  | [] => true
  | [_] => true
  | a :: b :: t => decide (a < b) && chainIncrB (b :: t)

/-- The numeric values a metric takes along a list of log entries. -/
def metricNums (met : String) (ls : List LogEntry) : List Rat :=
  ls.filterMap fun l => (l.data.lookup met).bind toNum

/-- Modelled from the claim's (and spec §4.6's) wording: take the last
`days` log entries CARRYING the metric — i.e. filter the whole log down to
the qualifying entries first and take the last `days` of those — and
require strictly increasing values; fewer than `days` qualifying entries is
false. (The source instead slices the last `days` entries of the whole log
before filtering; the two disagree, see the counterexample.) -/
def incremental_increase_claim (met : String) (days : Nat)
    (logs : List LogEntry) : Bool :=
  let q := logs.filter fun l => (l.data.lookup met).isSome
  let w := q.drop (q.length - days)
  decide (days ≤ q.length) && chainIncrB (metricNums met w)

def c9_condition : Cond :=
  { ctype := some "incremental_increase", metric := some "m", days := some 2 }

/-- Three log entries: the metric `m` appears on the first and third with
strictly increasing values, but not on the middle one. -/
def c9_logs : List LogEntry :=
  [{ timestamp := "t1", date := "2024-01-01", action_type := "mining",
     data := [("m", .vInt 1)] },
   { timestamp := "t2", date := "2024-01-02", action_type := "cea", data := [] },
   { timestamp := "t3", date := "2024-01-03", action_type := "mining",
     data := [("m", .vInt 2)] }]

/-- C9 counterexample: under the claim's reading (last `days` entries
carrying the metric) this log satisfies `IncrementalIncrease(m, 2)` — the
qualifying entries have values 1, 2 — but the code slices the last 2
entries of the whole log first, finds only one carrying the metric, and
returns false. -/
theorem c9_counterexample_window_disagrees :
    check_incremental_increase_condition c9_condition c9_logs = some false ∧
    incremental_increase_claim "m" 2 c9_logs = true := by decide

theorem mapM_lookup_eq_filterMap {α β : Type} (f : α → Option β) :
    ∀ l : List α, (∀ x ∈ l, (f x).isSome) → l.mapM f = some (l.filterMap f) := by
  intro l
  induction l with
  | nil => intro _; rfl
  | cons a t ih =>
    intro h
    have ha : (f a).isSome := h a (List.mem_cons_self a t)
    obtain ⟨b, hb⟩ := Option.isSome_iff_exists.mp ha
    rw [List.mapM_cons, hb, ih (fun x hx => h x (List.mem_cons_of_mem a hx))]
    simp [List.filterMap_cons, hb]

theorem incr_check_eq_chain :
    ∀ vs : List PValue, (∀ v ∈ vs, (toNum v).isSome) →
      incr_check vs = some (chainIncrB (vs.filterMap toNum)) := by
  intro vs
  induction vs with
  | nil => intro _; rfl
  | cons a t ih =>
    intro h
    have ha : (toNum a).isSome := h a (List.mem_cons_self a t)
    obtain ⟨qa, hqa⟩ := Option.isSome_iff_exists.mp ha
    cases t with
    | nil => simp [incr_check, List.filterMap_cons, List.filterMap_nil, hqa, chainIncrB]
    | cons b t' =>
      have hb : (toNum b).isSome := h b (by simp)
      obtain ⟨qb, hqb⟩ := Option.isSome_iff_exists.mp hb
      have hle : pyLe b a = some (decide (qb ≤ qa)) := by
        unfold pyLe
        rw [hqb, hqa]
      have hrest := ih (fun v hv => h v (List.mem_cons_of_mem a hv))
      by_cases hba : qb ≤ qa
      · rw [incr_check, hle]
        have hd : decide (qb ≤ qa) = true := decide_eq_true hba
        rw [hd]
        show some false = _
        simp only [List.filterMap_cons, hqa, hqb, chainIncrB]
        have hnl : decide (qa < qb) = false := decide_eq_false (not_lt.mpr hba)
        rw [hnl, Bool.false_and]
      · rw [incr_check, hle]
        have hd : decide (qb ≤ qa) = false := decide_eq_false hba
        rw [hd]
        show incr_check (b :: t') = _
        rw [hrest]
        simp only [List.filterMap_cons, hqa, hqb, chainIncrB]
        have hl2 : decide (qa < qb) = true := decide_eq_true (not_le.mp hba)
        rw [hl2, Bool.true_and]

/-- C9 amended: for `days ≥ 1` and a log whose values of the metric are
numeric, `check_incremental_increase_condition` is true iff the log has at
least `days` entries, the last `days` entries of the WHOLE log all carry
the metric, and their values are strictly increasing — the window is sliced
from the full log before filtering, so any non-qualifying entry inside the
last `days` entries (in particular fewer than `days` total entries) forces
false. -/
theorem c9_amended_window_is_last_entries_of_whole_log (met : String)
    (days : Int) (logs : List LogEntry) (hdays : 1 ≤ days)
    (hnum : ∀ l ∈ logs, ∀ v, l.data.lookup met = some v → (toNum v).isSome) :
    check_incremental_increase_condition
        { ctype := some "incremental_increase", metric := some met,
          days := some days } logs
      = some ((decide (days ≤ (logs.length : Int))
            && (pyTail days logs).all (fun l => (l.data.lookup met).isSome))
          && chainIncrB (metricNums met (pyTail days logs))) := by
  have hpos : (0 : Int) < days := by omega
  have hL : (pyTail days logs).length = min days.toNat logs.length := by
    unfold pyTail
    rw [if_pos hpos, List.length_drop]
    omega
  have hRL : ((pyTail days logs).filter
      (fun l => (l.data.lookup met).isSome)).Sublist (pyTail days logs) :=
    List.filter_sublist _
  have hRlen := hRL.length_le
  unfold check_incremental_increase_condition
  dsimp only [Option.bind_eq_bind, Option.some_bind]
  by_cases hlt : ((((pyTail days logs).filter
      (fun l => (l.data.lookup met).isSome)).length : Int) < days)
  · rw [if_pos hlt]
    have hA : (decide (days ≤ (logs.length : Int))
        && (pyTail days logs).all (fun l => (l.data.lookup met).isSome)) = false := by
      by_contra hA
      have hA' := Bool.of_not_eq_false hA
      obtain ⟨hdl, hallc⟩ := Bool.and_eq_true_iff.mp hA'
      have hdl' : days ≤ (logs.length : Int) := of_decide_eq_true hdl
      have hfe : (pyTail days logs).filter
          (fun l => (l.data.lookup met).isSome) = pyTail days logs :=
        List.filter_eq_self.mpr (by
          intro x hx
          exact (List.all_eq_true.mp hallc) x hx)
      rw [hfe] at hlt
      rw [hL] at hlt
      omega
    rw [hA]
    rfl
  · rw [if_neg hlt]
    have hlen2 : days.toNat ≤ ((pyTail days logs).filter
        (fun l => (l.data.lookup met).isSome)).length := by omega
    have hReq : ((pyTail days logs).filter
        (fun l => (l.data.lookup met).isSome)).length = (pyTail days logs).length := by
      omega
    have hfe : (pyTail days logs).filter
        (fun l => (l.data.lookup met).isSome) = pyTail days logs :=
      hRL.eq_of_length hReq
    have hdl : days ≤ (logs.length : Int) := by
      rw [hfe] at hReq hlen2
      omega
    have hallc : ∀ l ∈ pyTail days logs, (l.data.lookup met).isSome := by
      intro x hx
      have := List.filter_eq_self.mp hfe x hx
      simpa using this
    have hmemlogs : ∀ l ∈ pyTail days logs, l ∈ logs := by
      intro x hx
      unfold pyTail at hx
      rw [if_pos hpos] at hx
      exact List.drop_subset _ _ hx
    rw [hfe]
    rw [mapM_lookup_eq_filterMap _ _ hallc]
    dsimp only [Option.some_bind]
    rw [incr_check_eq_chain _ (by
      intro v hv
      obtain ⟨l, hl, hlv⟩ := List.mem_filterMap.mp hv
      exact hnum l (hmemlogs l hl) v hlv)]
    rw [List.filterMap_filterMap]
    have hAt : (decide (days ≤ (logs.length : Int))
        && (pyTail days logs).all (fun l => (l.data.lookup met).isSome)) = true := by
      rw [Bool.and_eq_true_iff]
      exact ⟨decide_eq_true hdl, List.all_eq_true.mpr (by
        intro x hx
        simpa using hallc x hx)⟩
    rw [hAt]
    rw [Bool.true_and]
    rfl

def c9_example_logs : List LogEntry :=
  [{ timestamp := "t1", date := "2024-01-01", action_type := "mining",
     data := [("m", .vInt 1)] },
   { timestamp := "t2", date := "2024-01-02", action_type := "mining",
     data := [("m", .vInt 2)] }]

theorem c9_amended_window_witness :
    check_incremental_increase_condition
        { ctype := some "incremental_increase", metric := some "m",
          days := some 2 } c9_example_logs
      = some ((decide ((2 : Int) ≤ (c9_example_logs.length : Int))
            && (pyTail 2 c9_example_logs).all (fun l => (l.data.lookup "m").isSome))
          && chainIncrB (metricNums "m" (pyTail 2 c9_example_logs))) :=
  c9_amended_window_is_last_entries_of_whole_log "m" 2 c9_example_logs (by decide)
    (by decide)

end CryptoRPG
